import Mathlib

/-!
# Verification of the homey-hjm session / transport core

Shallow embedding of the three components of the homey-hjm repository that
the specification's testable properties concern:

* `HelkiTokenManager` (lib/HelkiTokenManager.ts) — the Session Manager:
  credentials, cached token with expiry, deduplicated refresh.
* `HelkiApiClient` (lib/HelkiApiClient.ts) — the Resilient Request Client:
  the 401 response interceptor and `translateError`, and the
  `setNodeStatus` payload construction.
* `HelkiSocketClient` (lib/HelkiSocketClient.ts) — the Realtime Channel
  Manager: `connect` / `disconnect`, the reconnect backoff and the
  attempt cap.

Timestamps are modelled as `Int` (JS `Date.now()` millisecond values;
`tokenExpiresAt` may become negative, e.g. for `expires_in = 0`).
The cooperative single-threaded scheduler is modelled by splitting each
`async` function at its suspension points: the synchronous prefix of a
call is a pure state transformer, and the continuation after an `await`
is a second transformer applied once the awaited operation settles.
Promises are identified by numeric ids; "awaiting promise `p`" is
recorded as the id, and a resolution assigns one outcome per id, so all
waiters of one id receive the same outcome by construction — exactly the
single-resolution fan-out of a JS promise.
-/

namespace Helki

/-- Outcome of a settled token fetch: the token string, or the thrown error
message (fetchToken rejects with an `Error` whose message is all that the
callers observe). -/
inductive FetchOutcome
  | ok (token : String)
  | err (msg : String)
  deriving DecidableEq, Repr

/-- Credentials as stored by `authenticate` (lib/HelkiTokenManager.ts):
`{ username, password }`. -/
structure HelkiCredentials where
  username : String
  password : String
  deriving DecidableEq, Repr

/-- The mutable fields of `HelkiTokenManager`
(lib/HelkiTokenManager.ts): `accessToken`, `tokenExpiresAt`,
`credentials`, and `refreshPromise` (the in-flight refresh marker),
with the promise represented by its id. -/
structure TMState where
  accessToken : Option String
  tokenExpiresAt : Int
  credentials : Option HelkiCredentials
  refreshPromise : Option Nat
  deriving DecidableEq, Repr

/-- `TOKEN_REFRESH_BUFFER_MS = 5 * 60 * 1000` (lib/HelkiTokenManager.ts). -/
def TOKEN_REFRESH_BUFFER_MS : Int := 5 * 60 * 1000

/-- `isAuthenticated()` (lib/HelkiTokenManager.ts):
`this.accessToken !== null && Date.now() < this.tokenExpiresAt`. -/
def isAuthenticated (s : TMState) (now : Int) : Bool :=
  s.accessToken.isSome && decide (now < s.tokenExpiresAt)

/-- `invalidate()` (lib/HelkiTokenManager.ts): sets `accessToken = null`
and `tokenExpiresAt = 0`; touches nothing else. -/
def invalidate (s : TMState) : TMState :=
  { s with accessToken := none, tokenExpiresAt := 0 }

/-- The success path of `fetchToken()` (lib/HelkiTokenManager.ts): on a
200 response it stores `access_token` and computes
`tokenExpiresAt = Date.now() + expires_in * 1000 - TOKEN_REFRESH_BUFFER_MS`,
then returns the token. `now` is the `Date.now()` at the assignment and
`expiresIn` the server-reported `expires_in` in seconds. -/
def fetchTokenSuccess (s : TMState) (now : Int) (token : String)
    (expiresIn : Int) : TMState :=
  { s with
    accessToken := some token
    tokenExpiresAt := now + expiresIn * 1000 - TOKEN_REFRESH_BUFFER_MS }

/-- The failure path of `fetchToken()` (lib/HelkiTokenManager.ts): the
catch block clears `accessToken` and `tokenExpiresAt` before rethrowing. -/
def fetchTokenFailure (s : TMState) : TMState :=
  { s with accessToken := none, tokenExpiresAt := 0 }

/-- The synchronous prefix of `refresh()` (lib/HelkiTokenManager.ts
lines 180–189), run from the call up to the point the caller starts
awaiting. If `refreshPromise` is set, the caller simply awaits that
promise and no network request is made; otherwise `fetchToken()` is
started (one network request), the resulting promise (id `fresh`) is
stored in `refreshPromise`, and the caller awaits it. Returns the state
after the prefix, the promise id the caller awaits, and whether a
network token request was issued by this call. -/
def refreshStep (s : TMState) (fresh : Nat) : TMState × Nat × Bool :=
  match s.refreshPromise with
  | some p => (s, p, false)
  | none => ({ s with refreshPromise := some fresh }, fresh, true)

/-- The settlement of the in-flight refresh (lib/HelkiTokenManager.ts):
`fetchToken()` finishes (updating the token fields on its success or
failure path) and the `.finally` handler clears `refreshPromise`, after
which the stored promise resolves/rejects for every waiter. -/
def settleRefresh (s : TMState) (o : FetchOutcome) (now : Int)
    (expiresIn : Int) : TMState :=
  match o with
  | .ok token =>
      { fetchTokenSuccess s now token expiresIn with refreshPromise := none }
  | .err _ =>
      { fetchTokenFailure s with refreshPromise := none }

/-- `n` callers invoking `refresh()` one after another (each prefix runs
without an intervening settlement, as in the concurrent-callers
scenario). Returns the final state, the list of promise ids awaited by
the callers, and the number of network token requests the calls issued.
The `k`-th caller's fresh promise id (used only if it starts a fetch)
is `base + k`. -/
def runRefreshCallers (s : TMState) (base : Nat) : Nat → TMState × List Nat × Nat
  | 0 => (s, [], 0)
  | n + 1 =>
      let r := refreshStep s base
      let rest := runRefreshCallers r.1 (base + 1) n
      (rest.1, r.2.1 :: rest.2.1, (if r.2.2 then 1 else 0) + rest.2.2)


/-! ## Realtime Channel Manager — `HelkiSocketClient` -/

/-- `PING_INTERVAL_MS` (lib/HelkiSocketClient.ts). -/
def PING_INTERVAL_MS : Nat := 20000

/-- `RECONNECT_DELAY_MS` (lib/HelkiSocketClient.ts). -/
def RECONNECT_DELAY_MS : Nat := 5000

/-- `MAX_RECONNECT_ATTEMPTS` (lib/HelkiSocketClient.ts). -/
def MAX_RECONNECT_ATTEMPTS : Nat := 10

/-- `MAX_RECONNECT_DELAY_MS` (lib/HelkiSocketClient.ts). -/
def MAX_RECONNECT_DELAY_MS : Nat := 60000

/-- Events the client emits on itself (it extends `EventEmitter`). -/
inductive SCEvent
  | connected
  | disconnected (reason : String)
  | errorEvt
  | maxReconnectReached
  deriving DecidableEq, Repr

/-- The mutable fields of `HelkiSocketClient` (lib/HelkiSocketClient.ts):
`socket` (modelled by whether it is non-null), `pingTimer` and
`reconnectTimer` (whether an active timer handle is stored),
`reconnectAttempts` and `destroyed`; plus a ghost counter
`transportOpens` of how many times `io(...)` has been invoked (each
invocation opens a fresh transport connection attempt). -/
structure SCState where
  socketOpen : Bool
  transportOpens : Nat
  pingTimer : Bool
  reconnectTimer : Bool
  reconnectAttempts : Nat
  destroyed : Bool
  deriving DecidableEq, Repr

/-- A freshly constructed `HelkiSocketClient`. -/
def freshChannel : SCState :=
  { socketOpen := false, transportOpens := 0, pingTimer := false
    reconnectTimer := false, reconnectAttempts := 0, destroyed := false }

/-- The synchronous prefix of `connect()` (lib/HelkiSocketClient.ts
line 30): `if (this.destroyed) return;` — returns whether the method
proceeds to `await this.tokenManager.getToken()`. -/
def connectPre (s : SCState) : Bool :=
  !s.destroyed

/-- The continuation of `connect()` after the awaited token fetch
resolves (lib/HelkiSocketClient.ts lines 34–60): it unconditionally
calls `io(...)` — opening a new transport — and registers the event
handlers. There is no second `destroyed` check after the `await`. -/
def connectCont (s : SCState) : SCState :=
  { s with socketOpen := true, transportOpens := s.transportOpens + 1 }

/-- `disconnect()` (lib/HelkiSocketClient.ts lines 63–73): sets
`destroyed`, stops the ping timer, clears the reconnect timer, and if a
socket is present detaches its listeners, disconnects it and nulls it. -/
def disconnect (s : SCState) : SCState :=
  { s with
      destroyed := true
      pingTimer := false
      reconnectTimer := false
      socketOpen := false }

/-- `scheduleReconnect()` (lib/HelkiSocketClient.ts lines 102–126):
returns early if destroyed; at the attempt cap emits
`max_reconnect_reached` and returns; otherwise clears any prior
reconnect timer, computes
`delay = Math.min(RECONNECT_DELAY_MS * 2 ** reconnectAttempts, MAX_RECONNECT_DELAY_MS)`,
increments the counter and stores a new timer with that delay. Result:
the new state, the events emitted, and `some delay` iff a timer was
scheduled. -/
def scheduleReconnect (s : SCState) : SCState × List SCEvent × Option Nat :=
  if s.destroyed then (s, [], none)
  else if MAX_RECONNECT_ATTEMPTS ≤ s.reconnectAttempts then
    (s, [.maxReconnectReached], none)
  else
    (({ s with
          reconnectTimer := true
          reconnectAttempts := s.reconnectAttempts + 1 }),
     [],
     some (min (RECONNECT_DELAY_MS * 2 ^ s.reconnectAttempts)
       MAX_RECONNECT_DELAY_MS))

/-- The transport `connect` handler (lib/HelkiSocketClient.ts
lines 40–45): resets the attempt counter, starts the ping timer
(`startPing` cancels any prior one first), sends `dev_data` and emits
`connected`. -/
def onConnect (s : SCState) : SCState × List SCEvent :=
  ({ s with reconnectAttempts := 0, pingTimer := true }, [.connected])

/-- The transport `disconnect` handler (lib/HelkiSocketClient.ts
lines 51–55): stops the ping timer, emits `disconnected(reason)` and
calls `scheduleReconnect`. -/
def onDisconnect (s : SCState) (reason : String) :
    SCState × List SCEvent × Option Nat :=
  let r := scheduleReconnect { s with pingTimer := false }
  (r.1, .disconnected reason :: r.2.1, r.2.2)

/-- The transport `connect_error` handler (lib/HelkiSocketClient.ts
lines 57–60): emits `error` and calls `scheduleReconnect`. -/
def onConnectError (s : SCState) : SCState × List SCEvent × Option Nat :=
  let r := scheduleReconnect s
  (r.1, .errorEvt :: r.2.1, r.2.2)

/-- `k` consecutive `scheduleReconnect` calls (one per failed
reconnection round, no successful open in between), collecting the
delay each call scheduled (`none` = no timer scheduled by that call). -/
def iterSchedule (s : SCState) : Nat → SCState × List (Option Nat)
  | 0 => (s, [])
  | k + 1 =>
      let r := scheduleReconnect s
      let rest := iterSchedule r.1 k
      (rest.1, r.2.2 :: rest.2)



/-! ## Resilient Request Client — `HelkiApiClient` -/

/-- The observable shape of a `new Error(message)` value thrown by
`translateError` (lib/HelkiApiClient.ts): a plain JS `Error` carries its
class name (always "Error" here) and the message text; the branches
attach no status, no code, no subclass — nothing else. -/
structure JsError where
  name : String
  message : String
  deriving DecidableEq, Repr

/-- The fields of the incoming `AxiosError` that `translateError` reads:
`error.response?.status`, `error.code` and `error.message`. -/
structure AxiosErrorInfo where
  status : Option Nat
  code : Option String
  message : String
  deriving DecidableEq, Repr

/-- `translateError` (lib/HelkiApiClient.ts lines 70–83): 401 →
invalid-credentials message; 429 → rate-limit message; ECONNREFUSED or
ENOTFOUND → unreachable message; otherwise a generic wrapped message. -/
def translateError (e : AxiosErrorInfo) : JsError :=
  if e.status = some 401 then
    { name := "Error"
      message := "Invalid credentials. Check your HJM app login." }
  else if e.status = some 429 then
    { name := "Error"
      message := "Too many requests. Please wait a moment." }
  else if e.code = some "ECONNREFUSED" ∨ e.code = some "ENOTFOUND" then
    { name := "Error"
      message := "Could not connect to HJM cloud. Check your internet." }
  else
    { name := "Error"
      message := "HJM API error: " ++ e.message }

/-- A translated error with its message text blanked: what remains is
every structural component of the value (here: only the class name). -/
def eraseMessage (e : JsError) : JsError :=
  { e with message := "" }

/-- Result of one REST request as seen by the caller. -/
inductive ReqResult
  | resolved
  | rejected (msg : String)
  deriving DecidableEq, Repr

/-- The 401 response interceptor (lib/HelkiApiClient.ts lines 31–51),
run for one logical request handled sequentially. `server k` tells
whether the `k`-th transmission of the request comes back 401 (`false`
= it succeeds); `tokenSrv r` is the outcome of the `r`-th token refresh.
On a 401 the interceptor invalidates the token manager, starts a
refresh (the `refreshPromise` guard only dedupes overlapping refreshes;
for a sequential request the marker is already cleared by the
`.finally` when the replayed request fails again), and on refresh
success replays the request through the same interceptor; on refresh
failure the refresh error is thrown to the caller. `fuel` bounds the
number of transmissions; `none` means the retry chain did not finish
within `fuel` transmissions. Returns the result together with the
number of token invalidations and of refreshes performed. -/
def runRequest (server : Nat → Bool) (tokenSrv : Nat → FetchOutcome) :
    Nat → Nat → Nat → Nat → Option (ReqResult × Nat × Nat)
  | 0, _, _, _ => none
  | fuel + 1, k, inv, ref =>
      if server k then
        match tokenSrv ref with
        | .ok _ => runRequest server tokenSrv fuel (k + 1) (inv + 1) (ref + 1)
        | .err m => some (.rejected m, inv + 1, ref + 1)
      else
        some (.resolved, inv, ref)


/-- A JSON value as placed in the `setNodeStatus` payload. -/
inductive JsValue
  | str (s : String)
  | boolVal (b : Bool)
  deriving DecidableEq, Repr

/-- `Partial<HelkiNodeStatus>` (lib/types.ts lines 64–73): every field
of the parsed node status, each possibly absent. Temperatures are JS
numbers; they are modelled as `Int` here — none of the claims depends
on decimal rendering, only on which keys appear and that temperatures
pass through `String(...)` (`jsNumberString`). -/
structure PartialNodeStatus where
  stemp : Option Int
  mtemp : Option Int
  mode : Option String
  active : Option Bool
  locked : Option Bool
  presence : Option Bool
  window_open : Option Bool
  boost : Option Bool
  deriving DecidableEq, Repr

/-- JS `String(x)` applied to a temperature value. -/
def jsNumberString (n : Int) : String := toString n

/-- The outbound payload built by `setNodeStatus`
(lib/HelkiApiClient.ts lines 125–151): starting from the empty object
`apiStatus`, it adds — each under an `!== undefined` guard — `stemp`
and `mtemp` converted with `String(...)`, then `mode` and `active`
unchanged. No other field of the input is read. -/
def setNodeStatusPayload (status : PartialNodeStatus) :
    List (String × JsValue) :=
  (match status.stemp with
   | some v => [("stemp", JsValue.str (jsNumberString v))]
   | none => []) ++
  (match status.mtemp with
   | some v => [("mtemp", JsValue.str (jsNumberString v))]
   | none => []) ++
  (match status.mode with
   | some m => [("mode", JsValue.str m)]
   | none => []) ++
  (match status.active with
   | some b => [("active", JsValue.boolVal b)]
   | none => [])

end Helki

open Helki

/-- While a refresh is in flight, every further `refresh()` call joins the
stored promise: the state is unchanged, all callers await the same id,
and no network request is issued. -/
lemma runRefreshCallers_inflight (s : TMState) (p : Nat) (base n : Nat)
    (h : s.refreshPromise = some p) :
    runRefreshCallers s base n = (s, List.replicate n p, 0) := by
  induction n generalizing base with
  | zero => simp [runRefreshCallers]
  | succ n ih =>
      simp [runRefreshCallers, refreshStep, h, ih (base + 1),
        List.replicate_succ]

/-- A non-destroyed state below the cap schedules one timer with the
backoff delay for its current counter and increments the counter. -/
lemma scheduleReconnect_below_cap (s : SCState) (hd : s.destroyed = false)
    (hc : s.reconnectAttempts < MAX_RECONNECT_ATTEMPTS) :
    scheduleReconnect s =
      ({ s with
           reconnectTimer := true
           reconnectAttempts := s.reconnectAttempts + 1 },
       [],
       some (min (RECONNECT_DELAY_MS * 2 ^ s.reconnectAttempts)
         MAX_RECONNECT_DELAY_MS)) := by
  simp [scheduleReconnect, hd, Nat.not_le.mpr hc]

/-- Iterated scheduling from a non-destroyed state staying within the
cap: the `i`-th call (0-indexed) schedules delay
`min (5000 * 2 ^ (attempts₀ + i)) 60000`, and the counter advances by
one per call while `destroyed` stays false. -/
lemma iterSchedule_spec (k : Nat) : ∀ s : SCState, s.destroyed = false →
    s.reconnectAttempts + k ≤ MAX_RECONNECT_ATTEMPTS →
    (iterSchedule s k).2 =
      (List.range k).map
        (fun i => some (min (RECONNECT_DELAY_MS * 2 ^ (s.reconnectAttempts + i))
          MAX_RECONNECT_DELAY_MS)) ∧
    (iterSchedule s k).1.reconnectAttempts = s.reconnectAttempts + k ∧
    (iterSchedule s k).1.destroyed = false := by
  induction k with
  | zero => intro s hd _; simp [iterSchedule, hd]
  | succ k ih =>
      intro s hd hle
      have hc : s.reconnectAttempts < MAX_RECONNECT_ATTEMPTS := by omega
      have hstep := scheduleReconnect_below_cap s hd hc
      have ih2 := ih { s with
          reconnectTimer := true
          reconnectAttempts := s.reconnectAttempts + 1 } hd (by simp; omega)
      refine ⟨?_, ?_, ?_⟩
      · simp only [iterSchedule, hstep, List.range_succ_eq_map, List.map_cons,
          List.map_map]
        refine congrArg₂ _ rfl ?_
        rw [ih2.1]
        simp only [List.map_map]
        refine List.map_congr_left ?_
        intro i _
        simp [Function.comp]
        ring_nf
      · simp only [iterSchedule, hstep]
        rw [ih2.2.1]
        simp
        omega
      · simp only [iterSchedule, hstep]
        exact ih2.2.2

/-- With a server that answers 401 to every transmission and a token
endpoint that always succeeds, the interceptor retries forever: no fuel
suffices. -/
lemma runRequest_always401 (fuel : Nat) : ∀ k inv ref : Nat,
    runRequest (fun _ => true) (fun _ => FetchOutcome.ok "t") fuel k inv ref
      = none := by
  induction fuel with
  | zero => intro k inv ref; rfl
  | succ fuel ih => intro k inv ref; simpa [runRequest] using ih (k + 1) (inv + 1) (ref + 1)

/-- C1: while one refresh is in flight (the manager's `refreshPromise`
holds promise `p`), any number `n` of further `refresh()` callers issue
zero additional network token requests and all await the very same
promise `p`, hence all resolve to the identical outcome `res p`;
settling that network request clears the in-flight marker, so the next
`refresh()` call issues a fresh network request. -/
theorem C1_refresh_dedup (s : TMState) (p : Nat) (base n : Nat)
    (res : Nat → FetchOutcome) (o : FetchOutcome) (now expiresIn : Int)
    (fresh : Nat) (h : s.refreshPromise = some p) :
    (runRefreshCallers s base n).2.2 = 0 ∧
    (runRefreshCallers s base n).2.1 = List.replicate n p ∧
    (runRefreshCallers s base n).2.1.map res = List.replicate n (res p) ∧
    (settleRefresh s o now expiresIn).refreshPromise = none ∧
    (refreshStep (settleRefresh s o now expiresIn) fresh).2.2 = true := by
  have hrun := runRefreshCallers_inflight s p base n h
  refine ⟨by simp [hrun], by simp [hrun], by simp [hrun], ?_, ?_⟩
  · cases o <;> simp [settleRefresh, fetchTokenSuccess, fetchTokenFailure]
  · cases o <;>
      simp [settleRefresh, fetchTokenSuccess, fetchTokenFailure, refreshStep]

/-- Witness for C1 at a concrete in-flight state with three concurrent
callers. -/
theorem C1_refresh_dedup_witness :
    let s : TMState :=
      { accessToken := some "t0", tokenExpiresAt := 99
        credentials := some ⟨"u", "pw"⟩, refreshPromise := some 7 }
    (runRefreshCallers s 10 3).2.2 = 0 ∧
    (runRefreshCallers s 10 3).2.1 = List.replicate 3 7 ∧
    (runRefreshCallers s 10 3).2.1.map (fun _ => FetchOutcome.ok "t1") =
      List.replicate 3 (FetchOutcome.ok "t1") ∧
    (settleRefresh s (.ok "t1") 5000 14400).refreshPromise = none ∧
    (refreshStep (settleRefresh s (.ok "t1") 5000 14400) 11).2.2 = true :=
  C1_refresh_dedup _ 7 10 3 (fun _ => FetchOutcome.ok "t1") (.ok "t1")
    5000 14400 11 rfl

/-- C5: a token whose `expires_in`, after the 5-minute buffer, leaves a
non-positive remaining lifetime (e.g. `expires_in = 0`) is stored
without error by the fetch path, and `isAuthenticated()` is `false`
immediately after issuance. -/
theorem C5_expired_on_arrival (s : TMState) (now : Int) (token : String)
    (expiresIn : Int) (h : expiresIn * 1000 - TOKEN_REFRESH_BUFFER_MS ≤ 0) :
    (fetchTokenSuccess s now token expiresIn).accessToken = some token ∧
    isAuthenticated (fetchTokenSuccess s now token expiresIn) now = false := by
  constructor
  · rfl
  · simp only [isAuthenticated, fetchTokenSuccess, Option.isSome_some,
      Bool.true_and, decide_eq_false_iff_not, not_lt]
    have hb : TOKEN_REFRESH_BUFFER_MS = 300000 := by decide
    omega

/-- Witness for C5 at `expires_in = 0`. -/
theorem C5_expired_on_arrival_witness :
    let s : TMState :=
      { accessToken := none, tokenExpiresAt := 0
        credentials := some ⟨"u", "pw"⟩, refreshPromise := none }
    (0 : Int) * 1000 - TOKEN_REFRESH_BUFFER_MS ≤ 0 ∧
    (fetchTokenSuccess s 1700000 "tok" 0).accessToken = some "tok" ∧
    isAuthenticated (fetchTokenSuccess s 1700000 "tok" 0) 1700000 = false :=
  ⟨by decide, C5_expired_on_arrival _ 1700000 "tok" 0 (by decide)⟩

/-- C9: `invalidate()` clears the cached token and its expiry in every
state, and leaves the credentials and the in-flight refresh marker
unchanged. -/
theorem C9_invalidate_frame (s : TMState) :
    (invalidate s).accessToken = none ∧
    (invalidate s).tokenExpiresAt = 0 ∧
    (invalidate s).credentials = s.credentials ∧
    (invalidate s).refreshPromise = s.refreshPromise :=
  ⟨rfl, rfl, rfl, rfl⟩

/-- C3 (divergence evidence): `disconnect()` called while `connect()` is
suspended awaiting the token fetch does NOT prevent the continuation
from opening a transport. From a fresh client, `connect()` passes its
(only) `destroyed` check, `disconnect()` then runs, and when the token
fetch resolves the continuation still calls `io(...)`: one transport has
been opened (not zero), and once that socket connects the handler starts
the heartbeat timer — with the client destroyed. -/
theorem C3_disconnect_during_connect :
    connectPre freshChannel = true ∧
    (connectCont (disconnect freshChannel)).destroyed = true ∧
    (connectCont (disconnect freshChannel)).transportOpens = 1 ∧
    (onConnect (connectCont (disconnect freshChannel))).1.pingTimer = true ∧
    (onConnect (connectCont (disconnect freshChannel))).1.destroyed = true := by
  decide

/-- C4: counting attempts since the last successful open (counter 0),
the delay scheduled by the Nth `scheduleReconnect` call (1-indexed,
N ≤ 10) is `min (5000 * 2 ^ (N - 1)) 60000` ms; in particular the first
five delays from a fresh client are 5000, 10000, 20000, 40000, 60000. -/
theorem C4_backoff_delays (s : SCState) (N : Nat) (hd : s.destroyed = false)
    (h0 : s.reconnectAttempts = 0) (h1 : 1 ≤ N) (h2 : N ≤ 10) :
    (iterSchedule s 10).2[N - 1]? =
      some (some (min (5000 * 2 ^ (N - 1)) 60000)) ∧
    (iterSchedule freshChannel 5).2 =
      [some 5000, some 10000, some 20000, some 40000, some 60000] := by
  constructor
  · have h := iterSchedule_spec 10 s hd (by simp [MAX_RECONNECT_ATTEMPTS]; omega)
    rw [h.1]
    rw [List.getElem?_map]
    have hr : (List.range 10)[N - 1]? = some (N - 1) := by
      rw [List.getElem?_range]; omega
    rw [hr]
    simp [h0, RECONNECT_DELAY_MS, MAX_RECONNECT_DELAY_MS]
  · decide

/-- Witness for C4 at the fresh client and N = 2. -/
theorem C4_backoff_delays_witness :
    (iterSchedule freshChannel 10).2[2 - 1]? =
      some (some (min (5000 * 2 ^ (2 - 1)) 60000)) ∧
    (iterSchedule freshChannel 5).2 =
      [some 5000, some 10000, some 20000, some 40000, some 60000] :=
  C4_backoff_delays freshChannel 2 rfl rfl (by decide) (by decide)

/-- C6: after exactly `MAX_RECONNECT_ATTEMPTS = 10` consecutive
reconnections scheduled without a successful open, the counter is 10,
and the next transport disconnect (or connect error) emits
`max_reconnect_reached` and schedules no further reconnect timer;
moreover once `destroyed` is set, `scheduleReconnect` never schedules
anything (and emits nothing). -/
theorem C6_reconnect_cap (s : SCState) (reason : String)
    (hd : s.destroyed = false) (h0 : s.reconnectAttempts = 0) :
    (iterSchedule s 10).1.reconnectAttempts = MAX_RECONNECT_ATTEMPTS ∧
    (onDisconnect (iterSchedule s 10).1 reason).2.1 =
      [SCEvent.disconnected reason, SCEvent.maxReconnectReached] ∧
    (onDisconnect (iterSchedule s 10).1 reason).2.2 = none ∧
    (onConnectError (iterSchedule s 10).1).2.1 =
      [SCEvent.errorEvt, SCEvent.maxReconnectReached] ∧
    (onConnectError (iterSchedule s 10).1).2.2 = none ∧
    (∀ s' : SCState, s'.destroyed = true →
      scheduleReconnect s' = (s', [], none)) := by
  have h := iterSchedule_spec 10 s hd (by simp [MAX_RECONNECT_ATTEMPTS]; omega)
  have ha : (iterSchedule s 10).1.reconnectAttempts = MAX_RECONNECT_ATTEMPTS := by
    rw [h.2.1, h0]; decide
  have hd10 : (iterSchedule s 10).1.destroyed = false := h.2.2
  refine ⟨ha, ?_, ?_, ?_, ?_, ?_⟩
  · simp [onDisconnect, scheduleReconnect, hd10, ha]
  · simp [onDisconnect, scheduleReconnect, hd10, ha]
  · simp [onConnectError, scheduleReconnect, hd10, ha]
  · simp [onConnectError, scheduleReconnect, hd10, ha]
  · intro s' h'
    simp [scheduleReconnect, h']

/-- Witness for C6 at the fresh client. -/
theorem C6_reconnect_cap_witness :
    (iterSchedule freshChannel 10).1.reconnectAttempts =
      MAX_RECONNECT_ATTEMPTS ∧
    (onDisconnect (iterSchedule freshChannel 10).1 "transport close").2.1 =
      [SCEvent.disconnected "transport close", SCEvent.maxReconnectReached] ∧
    (onDisconnect (iterSchedule freshChannel 10).1 "transport close").2.2 =
      none ∧
    (onConnectError (iterSchedule freshChannel 10).1).2.1 =
      [SCEvent.errorEvt, SCEvent.maxReconnectReached] ∧
    (onConnectError (iterSchedule freshChannel 10).1).2.2 = none ∧
    (∀ s' : SCState, s'.destroyed = true →
      scheduleReconnect s' = (s', [], none)) :=
  C6_reconnect_cap freshChannel "transport close" rfl rfl

/-- C2 (divergence evidence): the interceptor retries on EVERY 401, not
only on the first. A single 401 followed by success gives exactly one
invalidation, one refresh and one replay (first conjunct, matching the
first half of the claim). But when the replay also gets a 401, the
interceptor performs a SECOND invalidate/refresh/replay cycle (second
conjunct: two 401s then success yields two invalidations and two
refreshes), and with a server that always answers 401 while refreshes
succeed the retry chain never terminates (third conjunct) — the failure
never surfaces as the InvalidCredentials error. -/
theorem C2_second_401_retries_again :
    runRequest (fun k => decide (k < 1)) (fun _ => FetchOutcome.ok "t")
      5 0 0 0 = some (.resolved, 1, 1) ∧
    runRequest (fun k => decide (k < 2)) (fun _ => FetchOutcome.ok "t")
      5 0 0 0 = some (.resolved, 2, 2) ∧
    (∀ fuel : Nat,
      runRequest (fun _ => true) (fun _ => FetchOutcome.ok "t")
        fuel 0 0 0 = none) := by
  refine ⟨by decide, by decide, ?_⟩
  intro fuel
  exact runRequest_always401 fuel 0 0 0

/-- C7 (counterexample): the four error categories produced by
`translateError` — invalid credentials (401), rate limited (429),
unreachable (ECONNREFUSED) and the generic wrapper — are all plain
`Error` values that become identical once their message text is erased:
no structural property of the returned value distinguishes them; only
the message text differs. -/
theorem C7_structural_distinction_fails :
    eraseMessage (translateError ⟨some 401, none, "401"⟩) =
      eraseMessage (translateError ⟨some 429, none, "429"⟩) ∧
    eraseMessage (translateError ⟨some 429, none, "429"⟩) =
      eraseMessage (translateError ⟨none, some "ECONNREFUSED", "conn"⟩) ∧
    eraseMessage (translateError ⟨none, some "ECONNREFUSED", "conn"⟩) =
      eraseMessage (translateError ⟨some 500, none, "boom"⟩) ∧
    (translateError ⟨some 401, none, "401"⟩).message ≠
      (translateError ⟨some 429, none, "429"⟩).message ∧
    (translateError ⟨some 429, none, "429"⟩).message ≠
      (translateError ⟨none, some "ECONNREFUSED", "conn"⟩).message := by
  decide

/-- C7 (amended): every error returned by `translateError` is one of
the four categories — with the 401, 429, connection-level and generic
branches producing their respective fixed messages — but the value is
always a plain `Error` (name "Error"): the categories can be told apart
only by their message text, not by any structural property. -/
theorem C7_error_taxonomy (e : AxiosErrorInfo) :
    (translateError e).name = "Error" ∧
    ((translateError e).message =
        "Invalid credentials. Check your HJM app login." ∨
      (translateError e).message =
        "Too many requests. Please wait a moment." ∨
      (translateError e).message =
        "Could not connect to HJM cloud. Check your internet." ∨
      (translateError e).message = "HJM API error: " ++ e.message) ∧
    (e.status = some 401 →
      (translateError e).message =
        "Invalid credentials. Check your HJM app login.") ∧
    (e.status = some 429 →
      (translateError e).message =
        "Too many requests. Please wait a moment.") ∧
    (e.status ≠ some 401 → e.status ≠ some 429 →
      (e.code = some "ECONNREFUSED" ∨ e.code = some "ENOTFOUND") →
      (translateError e).message =
        "Could not connect to HJM cloud. Check your internet.") ∧
    (e.status ≠ some 401 → e.status ≠ some 429 →
      e.code ≠ some "ECONNREFUSED" → e.code ≠ some "ENOTFOUND" →
      (translateError e).message = "HJM API error: " ++ e.message) := by
  rcases e with ⟨st, co, m⟩
  simp only [translateError]
  split_ifs with h1 h2 h3 <;> simp_all
  tauto

/-- Witness for C7 (amended) at a concrete 429 input. -/
theorem C7_error_taxonomy_witness :
    (translateError ⟨some 429, none, "boom"⟩).message =
      "Too many requests. Please wait a moment." :=
  (C7_error_taxonomy ⟨some 429, none, "boom"⟩).2.2.2.1 rfl

/-- C8: a key appears in the `setNodeStatus` outbound payload only if
the caller supplied the corresponding field — omitted (undefined)
fields are never sent; in particular a call supplying one field
produces a payload with no other field. -/
theorem C8_partial_update (status : PartialNodeStatus) (k : String)
    (h : k ∈ (setNodeStatusPayload status).map Prod.fst) :
    (k = "stemp" ∧ status.stemp.isSome) ∨
    (k = "mtemp" ∧ status.mtemp.isSome) ∨
    (k = "mode" ∧ status.mode.isSome) ∨
    (k = "active" ∧ status.active.isSome) := by
  rcases status with ⟨st, mt, mo, ac, l, p, w, b⟩
  cases st <;> cases mt <;> cases mo <;> cases ac <;>
    simp_all [setNodeStatusPayload]

/-- Witness for C8: a call supplying only `stemp`. -/
theorem C8_partial_update_witness :
    ("stemp" = "stemp" ∧
      (PartialNodeStatus.mk (some 22) none none none none none none
        none).stemp.isSome) ∨
    ("stemp" = "mtemp" ∧
      (PartialNodeStatus.mk (some 22) none none none none none none
        none).mtemp.isSome) ∨
    ("stemp" = "mode" ∧
      (PartialNodeStatus.mk (some 22) none none none none none none
        none).mode.isSome) ∨
    ("stemp" = "active" ∧
      (PartialNodeStatus.mk (some 22) none none none none none none
        none).active.isSome) :=
  C8_partial_update
    (PartialNodeStatus.mk (some 22) none none none none none none none)
    "stemp" (by decide)

/-- C10: the `setNodeStatus` payload only ever contains keys from
{stemp, mtemp, mode, active}; the public status fields `locked`,
`presence`, `window_open` and `boost` are silently dropped whatever the
caller supplies; and the two temperature fields are sent in their
`String(...)` form. -/
theorem C10_payload_whitelist (status : PartialNodeStatus) :
    (∀ k ∈ (setNodeStatusPayload status).map Prod.fst,
      k = "stemp" ∨ k = "mtemp" ∨ k = "mode" ∨ k = "active") ∧
    "locked" ∉ (setNodeStatusPayload status).map Prod.fst ∧
    "presence" ∉ (setNodeStatusPayload status).map Prod.fst ∧
    "window_open" ∉ (setNodeStatusPayload status).map Prod.fst ∧
    "boost" ∉ (setNodeStatusPayload status).map Prod.fst ∧
    (∀ v : Int, status.stemp = some v →
      ("stemp", JsValue.str (jsNumberString v)) ∈
        setNodeStatusPayload status) ∧
    (∀ v : Int, status.mtemp = some v →
      ("mtemp", JsValue.str (jsNumberString v)) ∈
        setNodeStatusPayload status) := by
  rcases status with ⟨st, mt, mo, ac, l, p, w, b⟩
  cases st <;> cases mt <;> cases mo <;> cases ac <;>
    simp_all [setNodeStatusPayload]

/-- Witness for C10: a status supplying `stemp` and all four dropped
fields — only `stemp` is transmitted, as a string. -/
theorem C10_payload_whitelist_witness :
    ("stemp", JsValue.str (jsNumberString 22)) ∈
      setNodeStatusPayload
        (PartialNodeStatus.mk (some 22) none none none (some true)
          (some true) (some true) (some true)) ∧
    "locked" ∉
      (setNodeStatusPayload
        (PartialNodeStatus.mk (some 22) none none none (some true)
          (some true) (some true) (some true))).map Prod.fst :=
  ⟨(C10_payload_whitelist
      (PartialNodeStatus.mk (some 22) none none none (some true)
        (some true) (some true) (some true))).2.2.2.2.2.1 22 rfl,
   (C10_payload_whitelist
      (PartialNodeStatus.mk (some 22) none none none (some true)
        (some true) (some true) (some true))).2.1⟩
